import Mathlib

/-!
Verification of the risk-scoring core of the PredictRAM risk-management
dashboard (`app.py`).

The scoring logic works on Python floats (including `float('inf')` and
`float('nan')` with IEEE comparison semantics), on `None`, and on strings.
We embed Python float values as an inductive type `Flt` over the rationals:
the thresholds and data values appearing in the program are all decimal
literals, so embedding as exact rationals is faithful for every comparison
the program performs.

The functions `categorize_risk`, `get_risk_color`, the threshold table
`risk_categories`, and the scorer `calculate_risk_parameters` are translated
line by line from `app.py`.  Spreadsheet loading, the Yahoo-Finance fetch and
all Streamlit rendering are external collaborators: the scorer receives a
reference table (`df`) and a real-time mapping (`stock_data`) as explicit
arguments.
-/

/-- A Python float value: a finite value (embedded as an exact rational),
positive infinity, negative infinity, or NaN. -/
inductive Flt where
  | fin (q : ℚ)
  | pinf
  | ninf
  | nan
deriving DecidableEq, Repr

/-- IEEE-754 `<` on Python floats: any comparison involving NaN is false;
`-inf` is below every finite value and `+inf` above every finite value. -/
def Flt.lt : Flt → Flt → Bool
  | .fin a, .fin b => decide (a < b)
  | .fin _, .pinf => true
  | .ninf, .fin _ => true
  | .ninf, .pinf => true
  | _, _ => false

/-- IEEE-754 `<=` on Python floats: any comparison involving NaN is false. -/
def Flt.le : Flt → Flt → Bool
  | .fin a, .fin b => decide (a ≤ b)
  | .fin _, .pinf => true
  | .ninf, .fin _ => true
  | .ninf, .pinf => true
  | .ninf, .ninf => true
  | .pinf, .pinf => true
  | _, _ => false

/-- A raw cell value as the scorer sees it: a number (Python int/float,
including NaN — how pandas represents an empty cell), a string that `float()`
parses to the given float, a string that `float()` rejects with `ValueError`
(such as the marker `'Data not available'`), or Python `None` (on which
`float()` raises `TypeError`). -/
inductive PyVal where
  | num (f : Flt)
  | strNum (f : Flt)
  | strBad (s : String)
  | pnone
deriving DecidableEq, Repr

/-- Python `float(value)` wrapped in `try/except (ValueError, TypeError)`:
`some` when the conversion succeeds, `none` when it raises. -/
def toFloat : PyVal → Option Flt
  | .num f => some f
  | .strNum f => some f
  | .strBad _ => Option.none
  | .pnone => Option.none

/-- `value is None` test from Python. -/
def PyVal.isNone : PyVal → Bool
  | .pnone => true
  | _ => false

/-- `categorize_risk(value, thresholds)` from `app.py` lines 36-48:
try `float(value)`, returning `'Data not available'` on failure; then
`'Good'` when `value < thresholds[0]`, `'Neutral'` when
`thresholds[0] <= value <= thresholds[1]`, else `'Bad'`. -/
def categorize_risk (value : PyVal) (thresholds : Flt × Flt) : String :=
  match toFloat value with
  | Option.none => "Data not available"
  | Option.some v =>
    if Flt.lt v thresholds.1 then "Good"
    else if Flt.le thresholds.1 v && Flt.le v thresholds.2 then "Neutral"
    else "Bad"

/-- `get_risk_color(risk_level)` from `app.py` lines 50-59. -/
def get_risk_color (risk_level : String) : String :=
  if risk_level == "Good" then "green"
  else if risk_level == "Neutral" then "yellow"
  else if risk_level == "Bad" then "red"
  else "black"

/-- The fixed threshold table `risk_categories` from `app.py` lines 15-34,
in declaration order: category name paired with its (parameter, band) list. -/
def risk_categories : List (String × List (String × (Flt × Flt))) :=
  [("Market Risk",
     [("Volatility", (Flt.fin (mkRat 1 10), Flt.fin (mkRat 1 5))),
      ("Beta", (Flt.fin (mkRat 1 2), Flt.fin (mkRat 3 2))),
      ("Correlation with ^NSEI", (Flt.fin (mkRat 7 10), Flt.fin 1))]),
   ("Financial Risk",
     [("debtToEquity", (Flt.fin (mkRat 1 2), Flt.fin (mkRat 3 2))),
      ("currentRatio", (Flt.fin (mkRat 3 2), Flt.fin 2)),
      ("quickRatio", (Flt.fin 1, Flt.fin (mkRat 3 2))),
      ("Profit Margins", (Flt.fin 20, Flt.fin 30)),
      ("returnOnAssets", (Flt.fin 10, Flt.fin 20)),
      ("returnOnEquity", (Flt.fin 15, Flt.fin 25))]),
   ("Liquidity Risk",
     [("Volume", (Flt.fin 1000000, Flt.pinf)),
      ("Average Volume", (Flt.fin 500000, Flt.fin 1000000)),
      ("marketCap", (Flt.fin 10000000000, Flt.pinf))])]

/-- One row of the static reference spreadsheet `df`: the stock symbol and
the remaining columns as an association list from column name to cell value. -/
structure StockRow where
  symbol : String
  fields : List (String × PyVal)
deriving DecidableEq, Repr

/-- One entry of `results` as built in `calculate_risk_parameters`
(lines 107-114 and 125-132 of `app.py`). -/
structure ClassificationResult where
  stockSymbol : String
  category : String
  parameter : String
  value : PyVal
  riskLevel : String
  color : String
deriving DecidableEq, Repr

/-- `stock_info.get(param)`: the pandas `Series.get`, returning the cell
when the key is present and Python `None` when it is absent. -/
def getField (fields : List (String × PyVal)) (k : String) : PyVal :=
  match fields.lookup k with
  | Option.some v => v
  | Option.none => PyVal.pnone

/-- `series[key] = v` / `dict[key] = v`: replace the value at an existing key,
append a new entry otherwise. -/
def setAssoc {α : Type} : List (String × α) → String → α → List (String × α)
  | [], k, v => [(k, v)]
  | (k0, v0) :: rest, k, v =>
    if k0 = k then (k, v) :: rest else (k0, v0) :: setAssoc rest k v

/-- `scores[key] += d` on an int-valued dict.  In `app.py` the key is always
present (category scores are initialized for every category at line 70), so
the absent-key case (a Python `KeyError`) is unreachable and modelled as a
no-op. -/
def addAssoc : List (String × Int) → String → Int → List (String × Int)
  | [], _, _ => []
  | (k0, v0) :: rest, k, d =>
    if k0 = k then (k0, v0 + d) :: rest else (k0, v0) :: addAssoc rest k d

/-- `df[df['Stock Symbol'] == stock_symbol]` followed by `.iloc[0]`:
the first matching row, or `none` when the selection is empty (line 80). -/
def findRow (rows : List StockRow) (sym : String) : Option StockRow :=
  rows.find? (fun r => r.symbol = sym)

/-- The accumulator threaded through `calculate_risk_parameters`: the
`results` list, the `category_scores` dict and `total_portfolio_score`. -/
structure ScoreState where
  results : List ClassificationResult
  category_scores : List (String × Int)
  total_portfolio_score : Int
deriving DecidableEq, Repr

/-- The body of the inner loop of `calculate_risk_parameters`
(lines 102-133): look the parameter up on the row; when it is not `None`,
classify it, append the record and move every score by +1, 0 or -1; when it is
`None`, append the `'Data not available'` record and leave scores alone.
Returns the updated state and the updated `total_stock_score`. -/
def processParam (sym category param : String) (thresholds : Flt × Flt)
    (stock_info : List (String × PyVal)) (st : ScoreState)
    (total_stock_score : Int) : ScoreState × Int :=
  let value := getField stock_info param
  if value.isNone = false then
    let risk_level := categorize_risk value thresholds
    let st1 : ScoreState :=
      { st with results := st.results ++
          [{ stockSymbol := sym, category := category, parameter := param,
             value := value, riskLevel := risk_level,
             color := get_risk_color risk_level }] }
    if risk_level == "Good" then
      ({ st1 with category_scores := addAssoc st1.category_scores category 1,
                  total_portfolio_score := st1.total_portfolio_score + 1 },
       total_stock_score + 1)
    else if risk_level == "Bad" then
      ({ st1 with category_scores := addAssoc st1.category_scores category (-1),
                  total_portfolio_score := st1.total_portfolio_score - 1 },
       total_stock_score - 1)
    else (st1, total_stock_score)
  else
    ({ st with results := st.results ++
        [{ stockSymbol := sym, category := category, parameter := param,
           value := PyVal.strBad "Data not available",
           riskLevel := "Data not available", color := "black" }] },
     total_stock_score)

/-- `for param, thresholds in parameters.items()` (line 101). -/
def processParams (sym category : String) :
    List (String × (Flt × Flt)) → List (String × PyVal) → ScoreState → Int →
    ScoreState × Int
  | [], _, st, sc => (st, sc)
  | p :: ps, stock_info, st, sc =>
    let r := processParam sym category p.1 p.2 stock_info st sc
    processParams sym category ps stock_info r.1 r.2

/-- `for category, parameters in risk_categories.items()` (line 100). -/
def processCats (sym : String) :
    List (String × List (String × (Flt × Flt))) → List (String × PyVal) →
    ScoreState → Int → ScoreState × Int
  | [], _, st, sc => (st, sc)
  | c :: cs, stock_info, st, sc =>
    let r := processParams sym c.1 c.2 stock_info st sc
    processCats sym cs stock_info r.1 r.2

/-- Lines 86-93 of `app.py`: when the symbol is in the fetched real-time
mapping, overwrite `Price` and `Volume` with the fetched close price and
volume; otherwise set both to the string `'Data not available'`. -/
def overrideFields (stock_data : List (String × (Flt × Flt))) (sym : String)
    (fields : List (String × PyVal)) : List (String × PyVal) :=
  match stock_data.lookup sym with
  | Option.some rt =>
    setAssoc (setAssoc fields "Price" (PyVal.num rt.1)) "Volume" (PyVal.num rt.2)
  | Option.none =>
    setAssoc (setAssoc fields "Price" (PyVal.strBad "Data not available"))
      "Volume" (PyVal.strBad "Data not available")

/-- `for stock_symbol in stock_symbols` (lines 76-135): skip a symbol with
no reference row, otherwise apply the real-time override, run all category
loops with a fresh `total_stock_score = 0`, and record the stock's score in
the `stock_scores` dict. -/
def processStocks (df : List StockRow) (stock_data : List (String × (Flt × Flt))) :
    List String → ScoreState → List (String × Int) →
    ScoreState × List (String × Int)
  | [], st, ss => (st, ss)
  | sym :: syms, st, ss =>
    match findRow df sym with
    | Option.none => processStocks df stock_data syms st ss
    | Option.some row =>
      let stock_info := overrideFields stock_data sym row.fields
      let r := processCats sym risk_categories stock_info st 0
      processStocks df stock_data syms r.1 (setAssoc ss sym r.2)

/-- The values returned by `calculate_risk_parameters` (line 137). -/
structure CalcOutput where
  results : List ClassificationResult
  category_scores : List (String × Int)
  stock_scores : List (String × Int)
  total_portfolio_score : Int
deriving DecidableEq, Repr

/-- `calculate_risk_parameters(stock_symbols)` from `app.py` lines 66-137.
The module-level spreadsheet `df` and the fetched `stock_data` are passed
explicitly; `category_scores` starts at 0 for every category (line 70). -/
def calculate_risk_parameters (df : List StockRow)
    (stock_data : List (String × (Flt × Flt)))
    (stock_symbols : List String) : CalcOutput :=
  let init : ScoreState :=
    { results := [],
      category_scores := risk_categories.map (fun c => (c.1, 0)),
      total_portfolio_score := 0 }
  let r := processStocks df stock_data stock_symbols init []
  { results := r.1.results, category_scores := r.1.category_scores,
    stock_scores := r.2, total_portfolio_score := r.1.total_portfolio_score }

/-- The keys of an association list. -/
def keysOf {α : Type} (l : List (String × α)) : List String := l.map Prod.fst

/-- The sum of the values of an int-valued association list
(Python `sum(d.values())`). -/
def sumVals (l : List (String × Int)) : Int := (l.map Prod.snd).sum

/-- The single record the inner loop of `calculate_risk_parameters` appends
for one `(category, parameter)` pair, read off from the two branches of
lines 104-133. -/
def recordFor (sym category param : String) (thresholds : Flt × Flt)
    (stock_info : List (String × PyVal)) : ClassificationResult :=
  let value := getField stock_info param
  if value.isNone = false then
    { stockSymbol := sym, category := category, parameter := param,
      value := value, riskLevel := categorize_risk value thresholds,
      color := get_risk_color (categorize_risk value thresholds) }
  else
    { stockSymbol := sym, category := category, parameter := param,
      value := PyVal.strBad "Data not available",
      riskLevel := "Data not available", color := "black" }

/-- The full block of records one stock contributes: one record per
parameter of each category, in declaration order. -/
def recordsFor (sym : String)
    (cats : List (String × List (String × (Flt × Flt))))
    (stock_info : List (String × PyVal)) : List ClassificationResult :=
  (cats.map (fun c => c.2.map (fun p => recordFor sym c.1 p.1 p.2 stock_info))).flatten

/-- The twelve `(category, parameter)` pairs of `risk_categories`, in
declaration order. -/
def declaredPairs : List (String × String) :=
  [("Market Risk", "Volatility"),
   ("Market Risk", "Beta"),
   ("Market Risk", "Correlation with ^NSEI"),
   ("Financial Risk", "debtToEquity"),
   ("Financial Risk", "currentRatio"),
   ("Financial Risk", "quickRatio"),
   ("Financial Risk", "Profit Margins"),
   ("Financial Risk", "returnOnAssets"),
   ("Financial Risk", "returnOnEquity"),
   ("Liquidity Risk", "Volume"),
   ("Liquidity Risk", "Average Volume"),
   ("Liquidity Risk", "marketCap")]

/-- The `results` list the scorer builds: per input symbol in order, the
block of that stock's records when it has a reference row, nothing
otherwise. -/
def expectedResults (df : List StockRow) (stock_data : List (String × (Flt × Flt))) :
    List String → List ClassificationResult
  | [] => []
  | sym :: syms =>
    match findRow df sym with
    | Option.none => expectedResults df stock_data syms
    | Option.some row =>
      recordsFor sym risk_categories (overrideFields stock_data sym row.fields) ++
        expectedResults df stock_data syms

/-- The `(stock, category, parameter)` tags of `results`, in the order the
scorer is claimed to produce them: stock input order outermost, then
category declaration order, then parameter declaration order. -/
def expectedTags (df : List StockRow) : List String → List (String × String × String)
  | [] => []
  | sym :: syms =>
    match findRow df sym with
    | Option.none => expectedTags df syms
    | Option.some _ =>
      declaredPairs.map (fun cp => (sym, cp.1, cp.2)) ++ expectedTags df syms

/-- A concrete reference row for witnesses and counterexamples: every
parameter of every category present and numeric, each value strictly below
its band. -/
def exRow : StockRow :=
  { symbol := "AAA",
    fields := [("Volatility", PyVal.num (Flt.fin (mkRat 1 20))),
               ("Beta", PyVal.num (Flt.fin (mkRat 1 10))),
               ("Correlation with ^NSEI", PyVal.num (Flt.fin (mkRat 1 10))),
               ("debtToEquity", PyVal.num (Flt.fin (mkRat 1 10))),
               ("currentRatio", PyVal.num (Flt.fin (mkRat 1 10))),
               ("quickRatio", PyVal.num (Flt.fin (mkRat 1 10))),
               ("Profit Margins", PyVal.num (Flt.fin 1)),
               ("returnOnAssets", PyVal.num (Flt.fin 1)),
               ("returnOnEquity", PyVal.num (Flt.fin 1)),
               ("Average Volume", PyVal.num (Flt.fin 1)),
               ("marketCap", PyVal.num (Flt.fin 1))] }

/-- A concrete real-time mapping covering `exRow`: close price 100,
volume 10 (below the `Volume` band, so it classifies `Good`). -/
def exSd : List (String × (Flt × Flt)) := [("AAA", (Flt.fin 100, Flt.fin 10))]

example : categorize_risk (PyVal.num (Flt.fin 1)) (Flt.fin (mkRat 1 2), Flt.fin (mkRat 3 2)) = "Neutral" := by decide
example : categorize_risk (PyVal.num (Flt.fin (mkRat 1 20))) (Flt.fin (mkRat 1 10), Flt.fin (mkRat 1 5)) = "Good" := by decide
example : categorize_risk (PyVal.num Flt.nan) (Flt.fin 0, Flt.pinf) = "Bad" := by decide
example : categorize_risk (PyVal.pnone) (Flt.fin 0, Flt.pinf) = "Data not available" := by decide
example : categorize_risk (PyVal.num Flt.pinf) (Flt.fin 1000000, Flt.pinf) = "Neutral" := by decide

theorem Flt.lt_nan_left (x : Flt) : Flt.lt Flt.nan x = false := by cases x <;> rfl

theorem Flt.le_nan_right (x : Flt) : Flt.le x Flt.nan = false := by cases x <;> rfl

/-- On a finite value and finite bounds, `categorize_risk` computes the
three-way comparison against the band. -/
theorem categorize_risk_fin (q a b : ℚ) :
    categorize_risk (PyVal.num (Flt.fin q)) (Flt.fin a, Flt.fin b) =
      if q < a then "Good" else if a ≤ q ∧ q ≤ b then "Neutral" else "Bad" := by
  by_cases h1 : q < a
  · simp [categorize_risk, toFloat, Flt.lt, h1]
  · by_cases h2 : q ≤ b
    · simp [categorize_risk, toFloat, Flt.lt, Flt.le, h1, h2, le_of_not_lt h1]
    · simp [categorize_risk, toFloat, Flt.lt, Flt.le, h1, h2]

/-- C1: on a real value and a well-formed finite band `low <= high`,
`categorize_risk` returns `Good` exactly below the band, `Neutral` exactly
inside it (both endpoints included), `Bad` exactly above it; in particular
both endpoints classify as `Neutral`. -/
theorem claim_C1 (q a b : ℚ) (hab : a ≤ b) :
    (categorize_risk (PyVal.num (Flt.fin q)) (Flt.fin a, Flt.fin b) = "Good" ↔ q < a) ∧
    (categorize_risk (PyVal.num (Flt.fin q)) (Flt.fin a, Flt.fin b) = "Neutral" ↔ (a ≤ q ∧ q ≤ b)) ∧
    (categorize_risk (PyVal.num (Flt.fin q)) (Flt.fin a, Flt.fin b) = "Bad" ↔ b < q) ∧
    categorize_risk (PyVal.num (Flt.fin a)) (Flt.fin a, Flt.fin b) = "Neutral" ∧
    categorize_risk (PyVal.num (Flt.fin b)) (Flt.fin a, Flt.fin b) = "Neutral" := by
  have hGN : ("Good" : String) ≠ "Neutral" := by decide
  have hGB : ("Good" : String) ≠ "Bad" := by decide
  have hNB : ("Neutral" : String) ≠ "Bad" := by decide
  refine ⟨?_, ?_, ?_, ?_, ?_⟩
  · rw [categorize_risk_fin]
    split_ifs with h1 h2
    · simp [h1]
    · simp [hGN.symm, h1]
    · simp [hGB.symm, h1]
  · rw [categorize_risk_fin]
    split_ifs with h1 h2
    · simp [hGN]
      exact fun ha => absurd h1 (not_lt.mpr ha)
    · simp [h2]
    · simp [hNB, h2]
  · rw [categorize_risk_fin]
    split_ifs with h1 h2
    · simp only [hGB, false_iff, not_lt]
      exact (h1.trans_le hab).le
    · simp only [hNB, false_iff, not_lt]
      exact h2.2
    · simp only [eq_self_iff_true, true_iff]
      exact lt_of_not_le fun hb => h2 ⟨le_of_not_lt h1, hb⟩
  · rw [categorize_risk_fin]
    simp [hab]
  · rw [categorize_risk_fin]
    rw [if_neg (not_lt.mpr hab), if_pos ⟨hab, le_refl b⟩]

theorem claim_C1_witness :
    (0 : ℚ) ≤ 2 ∧
    categorize_risk (PyVal.num (Flt.fin 1)) (Flt.fin 0, Flt.fin 2) = "Neutral" :=
  ⟨by norm_num, ((claim_C1 1 0 2 (by norm_num)).2.1).mpr (by norm_num)⟩

/-- C8: `categorize_risk` is total — it always returns one of the four
levels — and it returns `'Data not available'` exactly when `float(value)`
raises, i.e. when the value is not numeric. -/
theorem claim_C8 (value : PyVal) (low high : Flt) :
    (categorize_risk value (low, high) = "Good" ∨
     categorize_risk value (low, high) = "Neutral" ∨
     categorize_risk value (low, high) = "Bad" ∨
     categorize_risk value (low, high) = "Data not available") ∧
    (categorize_risk value (low, high) = "Data not available" ↔
      toFloat value = Option.none) := by
  cases value with
  | num f =>
    refine ⟨?_, ?_⟩
    · simp only [categorize_risk, toFloat]
      split_ifs <;> simp
    · simp only [categorize_risk, toFloat]
      split_ifs <;> simp
  | strNum f =>
    refine ⟨?_, ?_⟩
    · simp only [categorize_risk, toFloat]
      split_ifs <;> simp
    · simp only [categorize_risk, toFloat]
      split_ifs <;> simp
  | strBad s => simp [categorize_risk, toFloat]
  | pnone => simp [categorize_risk, toFloat]

theorem claim_C9_counterexample :
    categorize_risk (PyVal.num Flt.nan) (Flt.fin 0, Flt.pinf) = "Bad" := by decide

/-- C9 (amended): when the value and the lower bound are non-NaN floats and
the upper bound is `float('inf')`, `categorize_risk` never returns `Bad`.
(The unamended claim fails on NaN: see `claim_C9_counterexample`.) -/
theorem claim_C9 (f low : Flt) (hf : f ≠ Flt.nan) (hl : low ≠ Flt.nan) :
    categorize_risk (PyVal.num f) (low, Flt.pinf) ≠ "Bad" := by
  cases f with
  | nan => exact absurd rfl hf
  | fin q =>
    cases low with
    | nan => exact absurd rfl hl
    | fin a =>
      by_cases h : q < a
      · simp [categorize_risk, toFloat, Flt.lt, Flt.le, h]
      · simp [categorize_risk, toFloat, Flt.lt, Flt.le, h, le_of_not_lt h]
    | pinf => simp [categorize_risk, toFloat, Flt.lt, Flt.le]
    | ninf => simp [categorize_risk, toFloat, Flt.lt, Flt.le]
  | pinf =>
    cases low with
    | nan => exact absurd rfl hl
    | fin a => simp [categorize_risk, toFloat, Flt.lt, Flt.le]
    | pinf => simp [categorize_risk, toFloat, Flt.lt, Flt.le]
    | ninf => simp [categorize_risk, toFloat, Flt.lt, Flt.le]
  | ninf =>
    cases low with
    | nan => exact absurd rfl hl
    | fin a => simp [categorize_risk, toFloat, Flt.lt, Flt.le]
    | pinf => simp [categorize_risk, toFloat, Flt.lt, Flt.le]
    | ninf => simp [categorize_risk, toFloat, Flt.lt, Flt.le]

theorem claim_C9_witness :
    categorize_risk (PyVal.num (Flt.fin 5)) (Flt.fin 1000000, Flt.pinf) ≠ "Bad" :=
  claim_C9 (Flt.fin 5) (Flt.fin 1000000) (by decide) (by decide)

/-- C2: when the looked-up parameter value is `None` (missing), the loop
body appends exactly the `'Data not available'` / black record and leaves
the category scores, the portfolio score and the stock score unchanged. -/
theorem claim_C2 (sym category param : String) (thresholds : Flt × Flt)
    (stock_info : List (String × PyVal)) (st : ScoreState) (sc : Int)
    (h : (getField stock_info param).isNone = true) :
    processParam sym category param thresholds stock_info st sc =
      ({ st with results := st.results ++
          [{ stockSymbol := sym, category := category, parameter := param,
             value := PyVal.strBad "Data not available",
             riskLevel := "Data not available", color := "black" }] }, sc) := by
  simp [processParam, h]

theorem claim_C2_witness :
    (getField [("marketCap", PyVal.pnone)] "marketCap").isNone = true ∧
    processParam "DEF" "Liquidity Risk" "marketCap" (Flt.fin 10000000000, Flt.pinf)
        [("marketCap", PyVal.pnone)]
        { results := [], category_scores := [("Liquidity Risk", 0)],
          total_portfolio_score := 0 } 0 =
      ({ results :=
           [{ stockSymbol := "DEF", category := "Liquidity Risk",
              parameter := "marketCap",
              value := PyVal.strBad "Data not available",
              riskLevel := "Data not available", color := "black" }],
         category_scores := [("Liquidity Risk", 0)],
         total_portfolio_score := 0 }, 0) :=
  ⟨by decide,
   claim_C2 "DEF" "Liquidity Risk" "marketCap" (Flt.fin 10000000000, Flt.pinf)
     [("marketCap", PyVal.pnone)]
     { results := [], category_scores := [("Liquidity Risk", 0)],
       total_portfolio_score := 0 } 0 (by decide)⟩

/-- C3: a NaN value (a pandas empty cell) classifies as `Bad` for every
band, and the loop body therefore appends a red `Bad` record and decrements
the category score, the portfolio score and the stock score. -/
theorem claim_C3 (thresholds : Flt × Flt) (sym category param : String)
    (stock_info : List (String × PyVal)) (st : ScoreState) (sc : Int)
    (h : getField stock_info param = PyVal.num Flt.nan) :
    categorize_risk (PyVal.num Flt.nan) thresholds = "Bad" ∧
    processParam sym category param thresholds stock_info st sc =
      ({ st with
          results := st.results ++
            [{ stockSymbol := sym, category := category, parameter := param,
               value := PyVal.num Flt.nan, riskLevel := "Bad", color := "red" }],
          category_scores := addAssoc st.category_scores category (-1),
          total_portfolio_score := st.total_portfolio_score - 1 }, sc - 1) := by
  have hbad : categorize_risk (PyVal.num Flt.nan) thresholds = "Bad" := by
    simp [categorize_risk, toFloat, Flt.lt_nan_left, Flt.le_nan_right]
  refine ⟨hbad, ?_⟩
  simp [processParam, h, PyVal.isNone, hbad, get_risk_color]

theorem claim_C3_witness :
    getField [("Beta", PyVal.num Flt.nan)] "Beta" = PyVal.num Flt.nan ∧
    processParam "ABC" "Market Risk" "Beta" (Flt.fin (mkRat 1 2), Flt.fin (mkRat 3 2))
        [("Beta", PyVal.num Flt.nan)]
        { results := [], category_scores := [("Market Risk", 0)],
          total_portfolio_score := 0 } 0 =
      ({ results :=
           [{ stockSymbol := "ABC", category := "Market Risk", parameter := "Beta",
              value := PyVal.num Flt.nan, riskLevel := "Bad", color := "red" }],
         category_scores := addAssoc [("Market Risk", 0)] "Market Risk" (-1),
         total_portfolio_score := -1 }, -1) :=
  ⟨by decide,
   (claim_C3 (Flt.fin (mkRat 1 2), Flt.fin (mkRat 3 2)) "ABC" "Market Risk" "Beta"
     [("Beta", PyVal.num Flt.nan)]
     { results := [], category_scores := [("Market Risk", 0)],
       total_portfolio_score := 0 } 0 (by decide)).2⟩

theorem lookup_setAssoc_self {α : Type} (l : List (String × α)) (k : String) (v : α) :
    (setAssoc l k v).lookup k = Option.some v := by
  induction l with
  | nil => simp [setAssoc]
  | cons hd tl ih =>
    by_cases h : hd.1 = k
    · simp [setAssoc, h]
    · simp [setAssoc, h, List.lookup, beq_false_of_ne (Ne.symm h), ih]

theorem lookup_setAssoc_ne {α : Type} (l : List (String × α)) (k k2 : String) (v : α)
    (h : k2 ≠ k) : (setAssoc l k v).lookup k2 = l.lookup k2 := by
  induction l with
  | nil => simp [setAssoc, List.lookup, beq_false_of_ne h]
  | cons hd tl ih =>
    by_cases h0 : hd.1 = k
    · subst h0
      simp [setAssoc, List.lookup, beq_false_of_ne h]
    · simp only [setAssoc, if_neg h0]
      by_cases h2 : k2 = hd.1
      · simp [List.lookup, h2]
      · simp [List.lookup, beq_false_of_ne h2, ih]

theorem getField_setAssoc_self (l : List (String × PyVal)) (k : String) (v : PyVal) :
    getField (setAssoc l k v) k = v := by
  simp [getField, lookup_setAssoc_self]

theorem getField_setAssoc_ne (l : List (String × PyVal)) (k k2 : String) (v : PyVal)
    (h : k2 ≠ k) : getField (setAssoc l k v) k2 = getField l k2 := by
  simp [getField, lookup_setAssoc_ne l k k2 v h]

theorem keysOf_addAssoc (l : List (String × Int)) (k : String) (d : Int) :
    keysOf (addAssoc l k d) = keysOf l := by
  induction l with
  | nil => rfl
  | cons hd tl ih =>
    by_cases h : hd.1 = k
    · simp [addAssoc, h, keysOf]
    · simp only [addAssoc, if_neg h, keysOf, List.map_cons, List.cons.injEq, true_and]
      simpa [keysOf] using ih

theorem sumVals_addAssoc (l : List (String × Int)) (k : String) (d : Int)
    (h : k ∈ keysOf l) : sumVals (addAssoc l k d) = sumVals l + d := by
  induction l with
  | nil => simp [keysOf] at h
  | cons hd tl ih =>
    by_cases h0 : hd.1 = k
    · simp [addAssoc, h0, sumVals]
      omega
    · have hmem : k ∈ keysOf tl := by
        rcases List.mem_map.mp h with ⟨p, hp, hk⟩
        rcases List.mem_cons.mp hp with h1 | h1
        · exact absurd (h1 ▸ hk) h0
        · exact List.mem_map.mpr ⟨p, h1, hk⟩
      simp [addAssoc, h0, sumVals]
      have := ih hmem
      simp [sumVals] at this
      omega

theorem lookup_addAssoc_ne (l : List (String × Int)) (k k2 : String) (d : Int)
    (h : k2 ≠ k) : (addAssoc l k d).lookup k2 = l.lookup k2 := by
  induction l with
  | nil => rfl
  | cons hd tl ih =>
    by_cases h0 : hd.1 = k
    · subst h0
      simp [addAssoc, List.lookup, beq_false_of_ne h]
    · simp only [addAssoc, if_neg h0]
      by_cases h2 : k2 = hd.1
      · simp [List.lookup, h2]
      · simp [List.lookup, beq_false_of_ne h2, ih]

theorem sumVals_setAssoc_notmem (l : List (String × Int)) (k : String) (v : Int)
    (h : k ∉ keysOf l) : sumVals (setAssoc l k v) = sumVals l + v := by
  induction l with
  | nil => simp [setAssoc, sumVals]
  | cons hd tl ih =>
    have h1 : hd.1 ≠ k := fun he => h (by simp [keysOf, he])
    have h2 : k ∉ keysOf tl := fun he => h (by simp [keysOf] at he ⊢; right; exact he)
    simp [setAssoc, h1, sumVals]
    have := ih h2
    simp [sumVals] at this
    omega

theorem keysOf_setAssoc (l : List (String × Int)) (k : String) (v : Int) (k2 : String) :
    k2 ∈ keysOf (setAssoc l k v) ↔ k2 ∈ keysOf l ∨ k2 = k := by
  induction l with
  | nil => simp [setAssoc, keysOf]
  | cons hd tl ih =>
    by_cases h : hd.1 = k
    · subst h
      simp [setAssoc, keysOf]
      tauto
    · simp [setAssoc, h, keysOf] at ih ⊢
      tauto

theorem recordFor_stockSymbol (sym category param : String) (th : Flt × Flt)
    (si : List (String × PyVal)) : (recordFor sym category param th si).stockSymbol = sym := by
  simp only [recordFor]
  split_ifs <;> rfl

theorem recordFor_category (sym category param : String) (th : Flt × Flt)
    (si : List (String × PyVal)) : (recordFor sym category param th si).category = category := by
  simp only [recordFor]
  split_ifs <;> rfl

theorem recordFor_parameter (sym category param : String) (th : Flt × Flt)
    (si : List (String × PyVal)) : (recordFor sym category param th si).parameter = param := by
  simp only [recordFor]
  split_ifs <;> rfl

theorem processParam_results (sym category param : String) (th : Flt × Flt)
    (si : List (String × PyVal)) (st : ScoreState) (sc : Int) :
    (processParam sym category param th si st sc).1.results =
      st.results ++ [recordFor sym category param th si] := by
  simp only [processParam, recordFor]
  split_ifs <;> rfl

theorem processParam_scores (sym category param : String) (th : Flt × Flt)
    (si : List (String × PyVal)) (st : ScoreState) (sc : Int)
    (h : category ∈ keysOf st.category_scores) :
    ∃ d : Int,
      keysOf (processParam sym category param th si st sc).1.category_scores =
        keysOf st.category_scores ∧
      sumVals (processParam sym category param th si st sc).1.category_scores =
        sumVals st.category_scores + d ∧
      (processParam sym category param th si st sc).1.total_portfolio_score =
        st.total_portfolio_score + d ∧
      (processParam sym category param th si st sc).2 = sc + d := by
  simp only [processParam]
  split_ifs with h1 h2 h3
  · exact ⟨1, by simp [keysOf_addAssoc], by simp [sumVals_addAssoc _ _ _ h], rfl, rfl⟩
  · refine ⟨-1, by simp [keysOf_addAssoc], by simp [sumVals_addAssoc _ _ _ h], ?_, ?_⟩ <;>
      simp [sub_eq_add_neg]
  · exact ⟨0, rfl, by simp, by simp, by simp⟩
  · exact ⟨0, rfl, by simp, by simp, by simp⟩

theorem processParams_results (sym category : String) (ps : List (String × (Flt × Flt)))
    (si : List (String × PyVal)) (st : ScoreState) (sc : Int) :
    (processParams sym category ps si st sc).1.results =
      st.results ++ ps.map (fun p => recordFor sym category p.1 p.2 si) := by
  induction ps generalizing st sc with
  | nil => simp [processParams]
  | cons p ps ih => simp [processParams, ih, processParam_results]

theorem processParams_scores (sym category : String) (ps : List (String × (Flt × Flt)))
    (si : List (String × PyVal)) (st : ScoreState) (sc : Int)
    (h : category ∈ keysOf st.category_scores) :
    ∃ d : Int,
      keysOf (processParams sym category ps si st sc).1.category_scores =
        keysOf st.category_scores ∧
      sumVals (processParams sym category ps si st sc).1.category_scores =
        sumVals st.category_scores + d ∧
      (processParams sym category ps si st sc).1.total_portfolio_score =
        st.total_portfolio_score + d ∧
      (processParams sym category ps si st sc).2 = sc + d := by
  induction ps generalizing st sc with
  | nil => exact ⟨0, rfl, by simp [processParams], by simp [processParams], by simp [processParams]⟩
  | cons p ps ih =>
    obtain ⟨d1, hk1, hs1, ht1, hc1⟩ := processParam_scores sym category p.1 p.2 si st sc h
    obtain ⟨d2, hk2, hs2, ht2, hc2⟩ :=
      ih (processParam sym category p.1 p.2 si st sc).1
        (processParam sym category p.1 p.2 si st sc).2 (by rw [hk1]; exact h)
    refine ⟨d1 + d2, ?_, ?_, ?_, ?_⟩
    · show keysOf (processParams sym category ps si _ _).1.category_scores = _
      rw [hk2, hk1]
    · show sumVals (processParams sym category ps si _ _).1.category_scores = _
      rw [hs2, hs1, add_assoc]
    · show (processParams sym category ps si _ _).1.total_portfolio_score = _
      rw [ht2, ht1, add_assoc]
    · show (processParams sym category ps si _ _).2 = _
      rw [hc2, hc1, add_assoc]

theorem processCats_results (sym : String)
    (cats : List (String × List (String × (Flt × Flt))))
    (si : List (String × PyVal)) (st : ScoreState) (sc : Int) :
    (processCats sym cats si st sc).1.results = st.results ++ recordsFor sym cats si := by
  induction cats generalizing st sc with
  | nil => simp [processCats, recordsFor]
  | cons c cs ih => simp [processCats, recordsFor, ih, processParams_results]

theorem processCats_scores (sym : String)
    (cats : List (String × List (String × (Flt × Flt))))
    (si : List (String × PyVal)) (st : ScoreState) (sc : Int)
    (h : ∀ c ∈ cats, c.1 ∈ keysOf st.category_scores) :
    ∃ d : Int,
      keysOf (processCats sym cats si st sc).1.category_scores =
        keysOf st.category_scores ∧
      sumVals (processCats sym cats si st sc).1.category_scores =
        sumVals st.category_scores + d ∧
      (processCats sym cats si st sc).1.total_portfolio_score =
        st.total_portfolio_score + d ∧
      (processCats sym cats si st sc).2 = sc + d := by
  induction cats generalizing st sc with
  | nil => exact ⟨0, rfl, by simp [processCats], by simp [processCats], by simp [processCats]⟩
  | cons c cs ih =>
    obtain ⟨d1, hk1, hs1, ht1, hc1⟩ :=
      processParams_scores sym c.1 c.2 si st sc (h c (List.mem_cons_self c cs))
    obtain ⟨d2, hk2, hs2, ht2, hc2⟩ :=
      ih (processParams sym c.1 c.2 si st sc).1 (processParams sym c.1 c.2 si st sc).2
        (fun c2 hc2 => by rw [hk1]; exact h c2 (List.mem_cons_of_mem c hc2))
    refine ⟨d1 + d2, ?_, ?_, ?_, ?_⟩
    · show keysOf (processCats sym cs si _ _).1.category_scores = _
      rw [hk2, hk1]
    · show sumVals (processCats sym cs si _ _).1.category_scores = _
      rw [hs2, hs1, add_assoc]
    · show (processCats sym cs si _ _).1.total_portfolio_score = _
      rw [ht2, ht1, add_assoc]
    · show (processCats sym cs si _ _).2 = _
      rw [hc2, hc1, add_assoc]

theorem processStocks_results (df : List StockRow) (sd : List (String × (Flt × Flt)))
    (syms : List String) (st : ScoreState) (ss : List (String × Int)) :
    (processStocks df sd syms st ss).1.results = st.results ++ expectedResults df sd syms := by
  induction syms generalizing st ss with
  | nil => simp [processStocks, expectedResults]
  | cons sym syms ih =>
    cases hr : findRow df sym with
    | none => simp [processStocks, expectedResults, hr, ih]
    | some row => simp [processStocks, expectedResults, hr, ih, processCats_results]

theorem calculate_risk_parameters_results (df : List StockRow)
    (sd : List (String × (Flt × Flt))) (syms : List String) :
    (calculate_risk_parameters df sd syms).results = expectedResults df sd syms := by
  simp [calculate_risk_parameters, processStocks_results]

theorem processStocks_invariant (df : List StockRow) (sd : List (String × (Flt × Flt)))
    (syms : List String) :
    ∀ (st : ScoreState) (ss : List (String × Int)),
    (∀ c ∈ risk_categories, c.1 ∈ keysOf st.category_scores) →
    syms.Nodup → (∀ s ∈ syms, s ∉ keysOf ss) →
    keysOf (processStocks df sd syms st ss).1.category_scores =
      keysOf st.category_scores ∧
    (processStocks df sd syms st ss).1.total_portfolio_score -
        sumVals (processStocks df sd syms st ss).1.category_scores =
      st.total_portfolio_score - sumVals st.category_scores ∧
    (processStocks df sd syms st ss).1.total_portfolio_score -
        sumVals (processStocks df sd syms st ss).2 =
      st.total_portfolio_score - sumVals ss := by
  induction syms with
  | nil =>
    intro st ss h1 h2 h3
    simp [processStocks]
  | cons sym syms ih =>
    intro st ss hcats hnd hdisj
    have hnd2 : syms.Nodup := (List.nodup_cons.mp hnd).2
    have hsymnot : sym ∉ syms := (List.nodup_cons.mp hnd).1
    cases hr : findRow df sym with
    | none =>
      have h := ih st ss hcats hnd2 (fun s hs => hdisj s (List.mem_cons_of_mem _ hs))
      simpa [processStocks, hr] using h
    | some row =>
      obtain ⟨d, hk, hs, ht, hc⟩ :=
        processCats_scores sym risk_categories (overrideFields sd sym row.fields) st 0 hcats
      have hss : sym ∉ keysOf ss := hdisj sym (List.mem_cons_self sym syms)
      have hsum : sumVals (setAssoc ss sym
          (processCats sym risk_categories (overrideFields sd sym row.fields) st 0).2) =
          sumVals ss +
            (processCats sym risk_categories (overrideFields sd sym row.fields) st 0).2 :=
        sumVals_setAssoc_notmem ss sym _ hss
      have hdisj2 : ∀ s ∈ syms, s ∉ keysOf (setAssoc ss sym
          (processCats sym risk_categories (overrideFields sd sym row.fields) st 0).2) := by
        intro s hsmem hk2
        rcases (keysOf_setAssoc ss sym _ s).mp hk2 with hin | heq
        · exact hdisj s (List.mem_cons_of_mem _ hsmem) hin
        · exact hsymnot (heq ▸ hsmem)
      have hcats2 : ∀ c ∈ risk_categories, c.1 ∈ keysOf
          (processCats sym risk_categories (overrideFields sd sym row.fields) st 0).1.category_scores := by
        intro c hcmem
        rw [hk]
        exact hcats c hcmem
      have h := ih (processCats sym risk_categories (overrideFields sd sym row.fields) st 0).1
        (setAssoc ss sym
          (processCats sym risk_categories (overrideFields sd sym row.fields) st 0).2)
        hcats2 hnd2 hdisj2
      obtain ⟨ih1, ih2, ih3⟩ := h
      simp only [processStocks, hr]
      refine ⟨?_, ?_, ?_⟩
      · rw [ih1, hk]
      · omega
      · omega

theorem processStocks_stock_scores_lookup (df : List StockRow)
    (sd : List (String × (Flt × Flt))) (syms : List String) (sym : String)
    (h : findRow df sym = Option.none) :
    ∀ (st : ScoreState) (ss : List (String × Int)),
    (processStocks df sd syms st ss).2.lookup sym = ss.lookup sym := by
  induction syms with
  | nil => intro st ss; simp [processStocks]
  | cons sym0 syms ih =>
    intro st ss
    cases hr : findRow df sym0 with
    | none => simp [processStocks, hr, ih]
    | some row =>
      have hne : sym ≠ sym0 := by
        intro he
        rw [he, hr] at h
        exact Option.noConfusion h
      simp only [processStocks, hr]
      rw [ih]
      exact lookup_setAssoc_ne ss sym0 sym _ hne

theorem recordsFor_mem_symbol (sym : String)
    (cats : List (String × List (String × (Flt × Flt))))
    (si : List (String × PyVal)) (r : ClassificationResult)
    (h : r ∈ recordsFor sym cats si) : r.stockSymbol = sym := by
  simp only [recordsFor, List.mem_flatten, List.mem_map] at h
  obtain ⟨l, ⟨c, hc, hl⟩, hr⟩ := h
  subst hl
  obtain ⟨p, hp, hpr⟩ := List.mem_map.mp hr
  rw [← hpr]
  exact recordFor_stockSymbol sym c.1 p.1 p.2 si

theorem expectedResults_symbol_ne (df : List StockRow)
    (sd : List (String × (Flt × Flt))) (sym : String)
    (h : findRow df sym = Option.none) :
    ∀ (syms : List String), ∀ r ∈ expectedResults df sd syms, r.stockSymbol ≠ sym := by
  intro syms
  induction syms with
  | nil => simp [expectedResults]
  | cons sym0 syms ih =>
    cases hr : findRow df sym0 with
    | none => simpa [expectedResults, hr] using ih
    | some row =>
      intro r hmem
      simp only [expectedResults, hr, List.mem_append] at hmem
      rcases hmem with hm | hm
      · rw [recordsFor_mem_symbol sym0 _ _ r hm]
        intro he
        rw [he, h] at hr
        exact Option.noConfusion hr
      · exact ih r hm

/-- The tag projection of one stock's block is exactly the declared
`(category, parameter)` pairs, whatever the row data. -/
theorem recordsFor_tags (sym : String) (si : List (String × PyVal)) :
    (recordsFor sym risk_categories si).map
        (fun r => (r.stockSymbol, r.category, r.parameter)) =
      declaredPairs.map (fun cp => (sym, cp.1, cp.2)) := by
  simp [recordsFor, risk_categories, declaredPairs, recordFor_stockSymbol,
    recordFor_category, recordFor_parameter]

/-- C5: the scorer's `results` list is, stock by stock, exactly one block per
matched symbol, and every block carries exactly one record per declared
`(category, parameter)` rule — twelve records, in declaration order, with the
stock's symbol on each — even when values are unavailable. -/
theorem claim_C5 (df : List StockRow) (sd : List (String × (Flt × Flt)))
    (syms : List String) :
    (calculate_risk_parameters df sd syms).results = expectedResults df sd syms ∧
    declaredPairs.length = 12 ∧ declaredPairs.Nodup ∧
    ∀ (sym : String) (si : List (String × PyVal)),
      (recordsFor sym risk_categories si).map
          (fun r => (r.stockSymbol, r.category, r.parameter)) =
        declaredPairs.map (fun cp => (sym, cp.1, cp.2)) :=
  ⟨calculate_risk_parameters_results df sd syms, by decide, by decide,
   fun sym si => recordsFor_tags sym si⟩

theorem claim_C5_witness :
    (calculate_risk_parameters [exRow] exSd ["AAA"]).results =
      expectedResults [exRow] exSd ["AAA"] :=
  (claim_C5 [exRow] exSd ["AAA"]).1

/-- C10: the `(stock, category, parameter)` tags of `results` are ordered by
input stock position, then category declaration order, then parameter
declaration order, for every input. -/
theorem claim_C10 (df : List StockRow) (sd : List (String × (Flt × Flt)))
    (syms : List String) :
    (calculate_risk_parameters df sd syms).results.map
        (fun r => (r.stockSymbol, r.category, r.parameter)) =
      expectedTags df syms := by
  rw [calculate_risk_parameters_results]
  induction syms with
  | nil => simp [expectedResults, expectedTags]
  | cons sym syms ih =>
    cases hr : findRow df sym with
    | none => simp [expectedResults, expectedTags, hr, ih]
    | some row => simp [expectedResults, expectedTags, hr, ih, recordsFor_tags]

/-- C6: a symbol with no reference row contributes nothing — running the
scorer with it prepended returns the very same output, it gets no
`stock_scores` entry, and no result record carries it — and the remaining
stocks are still scored. -/
theorem claim_C6 (df : List StockRow) (sd : List (String × (Flt × Flt)))
    (sym : String) (syms : List String) (h : findRow df sym = Option.none) :
    calculate_risk_parameters df sd (sym :: syms) = calculate_risk_parameters df sd syms ∧
    (calculate_risk_parameters df sd syms).stock_scores.lookup sym = Option.none ∧
    ∀ r ∈ (calculate_risk_parameters df sd syms).results, r.stockSymbol ≠ sym := by
  refine ⟨?_, ?_, ?_⟩
  · simp [calculate_risk_parameters, processStocks, h]
  · simp [calculate_risk_parameters,
      processStocks_stock_scores_lookup df sd syms sym h]
  · rw [calculate_risk_parameters_results]
    exact expectedResults_symbol_ne df sd sym h syms

theorem claim_C6_witness :
    findRow [exRow] "ZZZ" = Option.none ∧
    calculate_risk_parameters [exRow] exSd ["ZZZ", "AAA"] =
      calculate_risk_parameters [exRow] exSd ["AAA"] :=
  ⟨by decide, (claim_C6 [exRow] exSd "ZZZ" ["AAA"] (by decide)).1⟩

/-- C7: before scoring, `Price` and `Volume` on the stock row become exactly
the fetched close price and volume when the symbol is in the real-time
mapping, and the `'Data not available'` marker when it is not — never the
static-file value — while every other field is left unchanged. -/
theorem claim_C7 (sd : List (String × (Flt × Flt))) (sym : String)
    (fields : List (String × PyVal)) :
    getField (overrideFields sd sym fields) "Price" =
      (match sd.lookup sym with
       | Option.some rt => PyVal.num rt.1
       | Option.none => PyVal.strBad "Data not available") ∧
    getField (overrideFields sd sym fields) "Volume" =
      (match sd.lookup sym with
       | Option.some rt => PyVal.num rt.2
       | Option.none => PyVal.strBad "Data not available") ∧
    ∀ k, k ≠ "Price" → k ≠ "Volume" →
      getField (overrideFields sd sym fields) k = getField fields k := by
  have hPV : ("Price" : String) ≠ "Volume" := by decide
  refine ⟨?_, ?_, ?_⟩
  · cases hsd : sd.lookup sym with
    | none =>
      simp [overrideFields, hsd, getField_setAssoc_ne _ _ _ _ hPV, getField_setAssoc_self]
    | some rt =>
      simp [overrideFields, hsd, getField_setAssoc_ne _ _ _ _ hPV, getField_setAssoc_self]
  · cases hsd : sd.lookup sym with
    | none => simp [overrideFields, hsd, getField_setAssoc_self]
    | some rt => simp [overrideFields, hsd, getField_setAssoc_self]
  · intro k hkP hkV
    cases hsd : sd.lookup sym with
    | none =>
      simp [overrideFields, hsd, getField_setAssoc_ne _ _ _ _ hkV,
        getField_setAssoc_ne _ _ _ _ hkP]
    | some rt =>
      simp [overrideFields, hsd, getField_setAssoc_ne _ _ _ _ hkV,
        getField_setAssoc_ne _ _ _ _ hkP]

theorem claim_C7_witness :
    getField (overrideFields exSd "AAA" exRow.fields) "Beta" =
      PyVal.num (Flt.fin (mkRat 1 10)) ∧
    getField (overrideFields exSd "AAA" exRow.fields) "Price" = PyVal.num (Flt.fin 100) := by
  constructor
  · rw [(claim_C7 exSd "AAA" exRow.fields).2.2 "Beta" (by decide) (by decide)]
    decide
  · rw [(claim_C7 exSd "AAA" exRow.fields).1]
    decide

theorem claim_C4_counterexample :
    (∀ r ∈ (calculate_risk_parameters [exRow] exSd ["AAA", "AAA"]).results,
        r.riskLevel ≠ "Data not available") ∧
    (calculate_risk_parameters [exRow] exSd ["AAA", "AAA"]).total_portfolio_score ≠
      sumVals (calculate_risk_parameters [exRow] exSd ["AAA", "AAA"]).stock_scores := by
  decide

/-- C4 (amended): for a batch of pairwise-distinct symbols — as the
dashboard's multiselect always supplies — with no `Unavailable`
classification, the portfolio score equals the sum of the category scores
and the sum of the stock scores.  (For a batch that repeats a symbol the
stock-score half fails, because `stock_scores` is a dict keyed by symbol
while the portfolio total counts every pass: see
`claim_C4_counterexample`.) -/
theorem claim_C4 (df : List StockRow) (sd : List (String × (Flt × Flt)))
    (syms : List String) (hnd : syms.Nodup)
    (_hav : ∀ r ∈ (calculate_risk_parameters df sd syms).results,
      r.riskLevel ≠ "Data not available") :
    (calculate_risk_parameters df sd syms).total_portfolio_score =
      sumVals (calculate_risk_parameters df sd syms).category_scores ∧
    (calculate_risk_parameters df sd syms).total_portfolio_score =
      sumVals (calculate_risk_parameters df sd syms).stock_scores := by
  have hcats : ∀ c ∈ risk_categories,
      c.1 ∈ keysOf (risk_categories.map (fun c => (c.1, (0 : Int)))) := by
    intro c hc
    simp only [keysOf, List.map_map]
    exact List.mem_map.mpr ⟨c, hc, rfl⟩
  have h := processStocks_invariant df sd syms
    { results := [], category_scores := risk_categories.map (fun c => (c.1, 0)),
      total_portfolio_score := 0 } [] hcats hnd (by simp [keysOf])
  obtain ⟨h1, h2, h3⟩ := h
  have hinit : sumVals (risk_categories.map (fun c => (c.1, (0 : Int)))) = 0 := by decide
  constructor
  · simp only [calculate_risk_parameters]
    rw [hinit] at h2
    simp only [sumVals] at h2 ⊢
    omega
  · simp only [calculate_risk_parameters]
    have hnil : sumVals ([] : List (String × Int)) = 0 := rfl
    rw [hnil] at h3
    simp only [sumVals] at h3 ⊢
    omega

theorem claim_C4_witness :
    (["AAA"] : List String).Nodup ∧
    (∀ r ∈ (calculate_risk_parameters [exRow] exSd ["AAA"]).results,
        r.riskLevel ≠ "Data not available") ∧
    (calculate_risk_parameters [exRow] exSd ["AAA"]).total_portfolio_score =
      sumVals (calculate_risk_parameters [exRow] exSd ["AAA"]).category_scores ∧
    (calculate_risk_parameters [exRow] exSd ["AAA"]).total_portfolio_score =
      sumVals (calculate_risk_parameters [exRow] exSd ["AAA"]).stock_scores :=
  ⟨by decide, by decide,
   claim_C4 [exRow] exSd ["AAA"] (by decide) (by decide)⟩
